import Mathlib

set_option linter.dupNamespace false

/-!
Verification of the Maestro-Core configuration library, shallowly embedded
from its Rust source (`src/core/model/workspace.rs`, `maestro.rs`,
`error.rs`, `src/core/config/model.rs`, `store.rs`).

File-system effects and the external libraries (`serde_json`,
`std::fs::canonicalize`, `regex`) are modelled by explicit state passing
and by function parameters representing the environment; the control flow
and the error messages are transcribed from the source.
-/

namespace Maestro

/-- The error enum of `src/core/model/error.rs`.  `error.rs` itself declares
`SerdeError` and `ConfigError`; the variant `MaestroConfigValidationError`
is the one constructed by `Workspace::validate` in `workspace.rs` and
matched by the tests in `store.rs`, so the crate's error type has the three
variants below. -/
inductive MaestroError where
  | SerdeError (msg : String)
  | ConfigError (msg : String)
  | MaestroConfigValidationError (msg : String)
deriving DecidableEq, Repr

/-- Constructor index of a `MaestroError`: the "kind" a caller can branch on
(`match load_result { Err(MaestroError::SerdeError(_)) => ... }`). -/
def MaestroError.kind : MaestroError → Nat
  | .SerdeError _ => 0
  | .ConfigError _ => 1
  | .MaestroConfigValidationError _ => 2

/-- Semantics of Rust's `\w` character class as used by
`Regex::new(r"^\w+$")` in `workspace.rs` (per the spec: letters, digits and
underscore; no whitespace or punctuation). -/
def isWordChar (c : Char) : Bool :=
  c.isAlphanum || c == '_'

/-- Model of `re.is_match(&name)` for `re = ^\w+$`: the whole string is one or more
word characters. -/
def matchesWordPattern (s : String) : Bool :=
  !s.isEmpty && s.data.all isWordChar

/-- Struct `Workspace` of `src/core/model/workspace.rs`.  `last_updated :
Option<DateTime<Utc>>` is modelled with an abstract timestamp (`Nat`);
no operation inspects it. -/
structure Workspace where
  name : String
  description : String
  workspace_path : String
  last_updated : Option Nat
deriving DecidableEq, Repr

/-- Function `Workspace::validate` of `workspace.rs` lines 17-36, transcribed check
for check with its exact messages. -/
def Workspace.validate (w : Workspace) : Except MaestroError Unit :=
  if !matchesWordPattern w.name then
    .error (.MaestroConfigValidationError
      "Name must be a single word (underscores are allowed)")
  else if w.name.isEmpty then
    .error (.MaestroConfigValidationError "Name cannot be empty")
  else if w.workspace_path.isEmpty then
    .error (.MaestroConfigValidationError "Workspace path cannot be empty")
  else
    .ok ()

instance : DecidableEq (Except MaestroError Unit) := fun a b =>
  match a, b with
  | .ok u, .ok v => if h : u = v then isTrue (by rw [h]) else isFalse (by
      intro hc; cases hc; exact h rfl)
  | .error e, .error f => if h : e = f then isTrue (by rw [h]) else isFalse (by
      intro hc; cases hc; exact h rfl)
  | .ok _, .error _ => isFalse (by intro hc; cases hc)
  | .error _, .ok _ => isFalse (by intro hc; cases hc)

/-- Struct `Maestro` of `src/core/model/maestro.rs`. -/
structure Maestro where
  workspaces : List Workspace
deriving DecidableEq, Repr

/-- The `for workspace in &self.workspaces { workspace.validate()?; }` loop
of `Maestro::validate`. -/
def validateAll : List Workspace → Except MaestroError Unit
  | [] => .ok ()
  | w :: rest =>
    match w.validate with
    | .error e => .error e
    | .ok _ => validateAll rest

/-- Function `Maestro::validate` of `maestro.rs` lines 11-16. -/
def Maestro.validate (m : Maestro) : Except MaestroError Unit :=
  validateAll m.workspaces

/-- The pointer record `Config` of `src/core/config/model.rs`. -/
structure Config where
  config_file_path : String
deriving DecidableEq, Repr

/-- Function `Config::new` of `model.rs` lines 9-13. -/
def Config.new (config_file_path : String) : Config :=
  ⟨config_file_path⟩

/-- Function `Config::default` of `model.rs`. -/
def Config.defaultConfig : Config :=
  ⟨"default.json"⟩

/-- The file system as `load_config` sees it: the contents of the
well-known pointer file `maestro.json` (`none` when it cannot be opened)
and the contents of every other file by path. -/
structure FileSystem where
  pointerFile : Option String
  userFiles : String → Option String

/-- Function `load_config` of `store.rs` lines 36-72.  The external effects are
parameters: `parseConfig` and `parseMaestro` stand for
`serde_json::from_reader` at the two types (`none` = deserialization
error), and the four `String` parameters are the formatted `{err}` values
interpolated into the messages.  The control flow—open pointer, parse
pointer, open user file, parse user file, validate—and the message
templates are transcribed from the source. -/
def load_config (parseConfig : String → Option Config)
    (parseMaestro : String → Option Maestro)
    (pointerOpenErr pointerParseErr userOpenErr userParseErr : String)
    (fs : FileSystem) : Except MaestroError Maestro :=
  match fs.pointerFile with
  | none =>
    .error (.ConfigError ("Failed to load Maestro configuration: "
      ++ pointerOpenErr ++ "\nEnsure Maestro is configured"))
  | some pointerContents =>
    match parseConfig pointerContents with
    | none =>
      .error (.SerdeError ("Failed to parse Maestro configuration: "
        ++ pointerParseErr))
    | some config =>
      match fs.userFiles config.config_file_path with
      | none =>
        .error (.ConfigError ("Failed to load user configuration: "
          ++ userOpenErr ++ "\nEnsure Maestro is configured"))
      | some userContents =>
        match parseMaestro userContents with
        | none =>
          .error (.SerdeError ("Failed to parse user configuration: "
            ++ userParseErr))
        | some maestro =>
          match maestro.validate with
          | .error e => .error e
          | .ok _ => .ok maestro

/-- Outcome of `save_user_config_file`: a returned `Result`, or a panic
(the source calls `absolute_path.to_str().unwrap()`, which panics when the
canonical path is not valid UTF-8). -/
inductive SaveOutcome (α : Type) where
  | ok (a : α)
  | err (e : MaestroError)
  | panicked
deriving DecidableEq, Repr

/-- Environment of `save_user_config_file`: `createOk`/`createErr` model
`File::create(maestro.json)`; `canon` models `fs::canonicalize` (`none` =
the path cannot be resolved; `some none` = resolved but the canonical path
is not valid UTF-8, so `to_str()` returns `None`; `some (some s)` =
resolved to the UTF-8 path `s`); `toJson` models
`serde_json::to_writer_pretty`'s serialization of a `Config`;
`writeOk`/`writeErr` model the write to the file. -/
structure SaveEnv where
  createOk : Bool
  createErr : String
  canon : String → Option (Option String)
  canonErr : String
  toJson : Config → String
  writeOk : Bool
  writeErr : String

/-- Function `save_user_config_file` of `store.rs` lines 94-119.  Returns the
pointer file's contents after the call together with the outcome.
`File::create` runs first and truncates the pointer file to empty;
canonicalization happens only afterwards.  On a failed write the file is
left in the truncated state (its exact partial contents are immaterial to
every claim). -/
def save_user_config_file (env : SaveEnv) (pointerFile : Option String)
    (user_config_path : String) : Option String × SaveOutcome String :=
  if !env.createOk then
    (pointerFile, .err (.ConfigError ("Failed to configure Maestro: "
      ++ env.createErr
      ++ "\nEnsure Maestro has write permissions and reconfigure")))
  else
    match env.canon user_config_path with
    | none =>
      (some "", .err (.ConfigError ("Failed to canonicalize path '"
        ++ user_config_path ++ "': " ++ env.canonErr
        ++ "\nEnsure the file exists")))
    | some none => (some "", .panicked)
    | some (some absolutePath) =>
      let config := Config.new absolutePath
      if env.writeOk then
        (some (env.toJson config), .ok absolutePath)
      else
        (some "", .err (.SerdeError ("Failed to configure Maestro: "
          ++ env.writeErr)))

/-- Predicate for `message contains the substring pat`. -/
def containsSubstr (s pat : String) : Prop :=
  pat.data <:+: s.data

instance (s pat : String) : Decidable (containsSubstr s pat) :=
  inferInstanceAs (Decidable (pat.data <:+: s.data))

/-- A concrete pointer-file parse: the contents `"ptr"` parse to a record
pointing at `"user.json"`. -/
def parseConfigEx : String → Option Config :=
  fun s => if s = "ptr" then some (Config.new "user.json") else none

/-- A concrete aggregate whose first invalid workspace has an empty path
and which also contains a workspace named `"Workspace B"`. -/
def maestroEmptyPathThenSpace : Maestro :=
  Maestro.mk
    [⟨"WorkspaceA", "d", "", none⟩,
     ⟨"Workspace B", "d", "/b", none⟩]

/-- A concrete user-file parse: the contents `"usr"` parse to
`maestroEmptyPathThenSpace`. -/
def parseMaestroEx : String → Option Maestro :=
  fun s => if s = "usr" then some maestroEmptyPathThenSpace else none

/-- A file system with no pointer file at all. -/
def fsNoPointer : FileSystem :=
  ⟨none, fun _ => none⟩

/-- A file system whose pointer file parses but whose user file is
missing. -/
def fsNoUserFile : FileSystem :=
  ⟨some "ptr", fun _ => none⟩

/-- A file system where the whole load pipeline reaches validation of
`maestroEmptyPathThenSpace`. -/
def fsUserFile : FileSystem :=
  ⟨some "ptr", fun p => if p = "user.json" then some "usr" else none⟩

/-- A save environment whose canonicalization always fails (the argument
path does not exist). -/
def envCanonFails : SaveEnv :=
  ⟨true, "", fun _ => none, "No such file or directory", fun c => c.config_file_path, true, ""⟩

/-- A save environment whose canonical path is not valid UTF-8. -/
def envCanonNotUtf8 : SaveEnv :=
  ⟨true, "", fun _ => some none, "", fun c => c.config_file_path, true, ""⟩

/-- A save environment that canonicalizes every path to `"/abs/user.json"`
and serializes a `Config` to its path field. -/
def envCanonConst : SaveEnv :=
  ⟨true, "", fun _ => some (some "/abs/user.json"), "", fun c => c.config_file_path, true, ""⟩

/-- A parse that is a left inverse of `envCanonConst.toJson`. -/
def parseConfigInv : String → Option Config :=
  fun s => some ⟨s⟩

end Maestro

namespace Maestro

theorem validate_ok_iff (w : Workspace) :
    w.validate = .ok () ↔
      (matchesWordPattern w.name = true ∧ w.workspace_path.isEmpty = false) := by
  unfold Workspace.validate
  constructor
  · intro h
    by_cases hm : matchesWordPattern w.name
    · by_cases hp : w.workspace_path.isEmpty
      · by_cases hn : w.name.isEmpty <;> simp [hm, hp, hn] at h
      · exact ⟨hm, by simpa using hp⟩
    · simp [hm] at h
  · rintro ⟨hm, hp⟩
    have hn : w.name.isEmpty = false := by
      unfold matchesWordPattern at hm
      rcases Bool.and_eq_true_iff.mp hm with ⟨h1, _⟩
      simpa using h1
    simp [hm, hn, hp]

/-- Claim C1. `Workspace::validate(w)` succeeds iff `w.name` matches `^\w+$`
and `w.workspace_path` is non-empty; `description` and `last_updated` have
no effect on the result. -/
theorem C1_validate_characterisation
    (w : Workspace) (d : String) (t : Option Nat) :
    (w.validate = .ok () ↔
      (matchesWordPattern w.name = true ∧ w.workspace_path.isEmpty = false))
    ∧ ({ w with description := d, last_updated := t } : Workspace).validate
        = w.validate := by
  refine ⟨validate_ok_iff w, ?_⟩
  unfold Workspace.validate
  rfl

theorem validateAll_ok_iff (l : List Workspace) :
    validateAll l = .ok () ↔ ∀ w ∈ l, w.validate = .ok () := by
  induction l with
  | nil => simp [validateAll]
  | cons w rest ih =>
    unfold validateAll
    cases hw : w.validate with
    | error e => simp [hw]
    | ok u =>
      cases u
      simpa [hw] using ih

/-- Claim C2. `Maestro::validate(A)` succeeds iff `Workspace::validate(w)`
succeeds for every workspace `w` of `A`; for the empty workspace list it
succeeds vacuously. -/
theorem C2_maestro_validate_iff_all (m : Maestro) :
    (m.validate = .ok () ↔ ∀ w ∈ m.workspaces, w.validate = .ok ())
    ∧ (Maestro.mk []).validate = .ok () := by
  exact ⟨validateAll_ok_iff m.workspaces, rfl⟩

theorem validateAll_first_error (pre : List Workspace) (w : Workspace)
    (post : List Workspace) (e : MaestroError)
    (hpre : ∀ v ∈ pre, v.validate = .ok ())
    (hw : w.validate = .error e) :
    validateAll (pre ++ w :: post) = .error e := by
  induction pre with
  | nil => simp [validateAll, hw]
  | cons v rest ih =>
    have hv : v.validate = .ok () := hpre v (by simp)
    have : validateAll (rest ++ w :: post) = .error e :=
      ih fun u hu => hpre u (by simp [hu])
    simpa [validateAll, hv] using this

/-- Claim C5. When the workspace list splits as `pre ++ w :: post` with every
workspace of `pre` valid and `w` invalid with error `e`, `Maestro::validate`
returns exactly `e`: the first invalid workspace's error, unchanged,
regardless of the workspaces after it (fail-fast). -/
theorem C5_maestro_validate_fail_fast (pre : List Workspace) (w : Workspace)
    (post : List Workspace) (e : MaestroError)
    (hpre : ∀ v ∈ pre, v.validate = .ok ())
    (hw : w.validate = .error e) :
    (Maestro.mk (pre ++ w :: post)).validate = .error e :=
  validateAll_first_error pre w post e hpre hw

/-- Witness for C5 at a concrete aggregate: one valid workspace followed by
`"Workspace B"` and a further valid workspace. -/
theorem C5_maestro_validate_fail_fast_witness :
    (Maestro.mk
      [⟨"WorkspaceA", "d", "/a", none⟩,
       ⟨"Workspace B", "d", "/b", none⟩,
       ⟨"WorkspaceC", "d", "/c", none⟩]).validate
      = .error (.MaestroConfigValidationError
          "Name must be a single word (underscores are allowed)") :=
  C5_maestro_validate_fail_fast
    [⟨"WorkspaceA", "d", "/a", none⟩]
    ⟨"Workspace B", "d", "/b", none⟩
    [⟨"WorkspaceC", "d", "/c", none⟩]
    (.MaestroConfigValidationError
      "Name must be a single word (underscores are allowed)")
    (by decide) (by decide)

theorem validate_pattern_fail (w : Workspace)
    (hm : matchesWordPattern w.name = false) :
    w.validate = .error (.MaestroConfigValidationError
      "Name must be a single word (underscores are allowed)") := by
  unfold Workspace.validate
  simp [hm]

/-- Claim C6. The checks of `Workspace::validate` run in order (a) name
matches `^\w+$`, (b) name non-empty, (c) path non-empty, and the first
failure wins: a name failing the pattern (in particular the empty name)
yields check (a)'s message, and a pattern-valid name with an empty path
yields check (c)'s message. -/
theorem C6_validate_check_order (w : Workspace) :
    (matchesWordPattern w.name = false →
      w.validate = .error (.MaestroConfigValidationError
        "Name must be a single word (underscores are allowed)"))
    ∧ (w.name = "" →
      w.validate = .error (.MaestroConfigValidationError
        "Name must be a single word (underscores are allowed)"))
    ∧ (matchesWordPattern w.name = true → w.workspace_path.isEmpty = true →
      w.validate = .error (.MaestroConfigValidationError
        "Workspace path cannot be empty")) := by
  refine ⟨?_, ?_, ?_⟩
  · exact validate_pattern_fail w
  · intro hn
    have hm : matchesWordPattern w.name = false := by
      unfold matchesWordPattern
      rw [hn]
      decide
    exact validate_pattern_fail w hm
  · intro hm hp
    have hn : w.name.isEmpty = false := by
      unfold matchesWordPattern at hm
      rcases Bool.and_eq_true_iff.mp hm with ⟨h1, _⟩
      simpa using h1
    unfold Workspace.validate
    simp [hm, hn, hp]

/-- Witness for C6: the empty-named workspace gets check (a)'s message, and
a workspace with a valid name and empty path gets check (c)'s message. -/
theorem C6_validate_check_order_witness :
    (Workspace.mk "" "d" "/p" none).validate
      = .error (.MaestroConfigValidationError
          "Name must be a single word (underscores are allowed)")
    ∧ (Workspace.mk "WorkspaceA" "d" "" none).validate
      = .error (.MaestroConfigValidationError
          "Workspace path cannot be empty") :=
  ⟨(C6_validate_check_order (Workspace.mk "" "d" "/p" none)).2.1 rfl,
   (C6_validate_check_order (Workspace.mk "WorkspaceA" "d" "" none)).2.2
     (by decide) (by decide)⟩

theorem workspace_validate_error_kind (w : Workspace) (e : MaestroError)
    (h : w.validate = .error e) : e.kind = 2 := by
  unfold Workspace.validate at h
  split at h
  · cases h; rfl
  · split at h
    · cases h; rfl
    · split at h
      · cases h; rfl
      · cases h

theorem validateAll_error_kind (l : List Workspace) (e : MaestroError)
    (h : validateAll l = .error e) : e.kind = 2 := by
  induction l with
  | nil => simp [validateAll] at h
  | cons w rest ih =>
    unfold validateAll at h
    cases hw : w.validate with
    | error f =>
      rw [hw] at h
      cases h
      exact workspace_validate_error_kind w e hw
    | ok u =>
      rw [hw] at h
      exact ih h

/-- Claim C3, corrected. How the five stages of `load_config` surface their
failures: pointer-file-not-found and user-config-not-found both yield a
`ConfigError`, the two malformed-file modes both yield a `SerdeError`, and
a validation failure is propagated unchanged with the distinct kind
`MaestroConfigValidationError`; the two not-found modes (and likewise the
two parse modes) are told apart only by their messages, not by kind. -/
theorem C3_load_error_taxonomy
    (pc : String → Option Config) (pm : String → Option Maestro)
    (e1 e2 e3 e4 : String) (fs : FileSystem) :
    (fs.pointerFile = none →
      load_config pc pm e1 e2 e3 e4 fs
        = .error (.ConfigError ("Failed to load Maestro configuration: "
            ++ e1 ++ "\nEnsure Maestro is configured")))
    ∧ (∀ s, fs.pointerFile = some s → pc s = none →
      load_config pc pm e1 e2 e3 e4 fs
        = .error (.SerdeError ("Failed to parse Maestro configuration: " ++ e2)))
    ∧ (∀ s cfg, fs.pointerFile = some s → pc s = some cfg →
        fs.userFiles cfg.config_file_path = none →
      load_config pc pm e1 e2 e3 e4 fs
        = .error (.ConfigError ("Failed to load user configuration: "
            ++ e3 ++ "\nEnsure Maestro is configured")))
    ∧ (∀ s cfg u, fs.pointerFile = some s → pc s = some cfg →
        fs.userFiles cfg.config_file_path = some u → pm u = none →
      load_config pc pm e1 e2 e3 e4 fs
        = .error (.SerdeError ("Failed to parse user configuration: " ++ e4)))
    ∧ (∀ s cfg u m e, fs.pointerFile = some s → pc s = some cfg →
        fs.userFiles cfg.config_file_path = some u → pm u = some m →
        m.validate = .error e →
      load_config pc pm e1 e2 e3 e4 fs = .error e ∧ e.kind = 2) := by
  refine ⟨?_, ?_, ?_, ?_, ?_⟩
  · intro h
    simp [load_config, h]
  · intro s h1 h2
    simp [load_config, h1, h2]
  · intro s cfg h1 h2 h3
    simp [load_config, h1, h2, h3]
  · intro s cfg u h1 h2 h3 h4
    simp [load_config, h1, h2, h3, h4]
  · intro s cfg u m e h1 h2 h3 h4 h5
    constructor
    · simp [load_config, h1, h2, h3, h4, Maestro.validate] at h5 ⊢
      rw [h5]
    · exact validateAll_error_kind m.workspaces e h5

/-- Witness for C3 at a concrete environment: the pointer file is absent
and the load reports the `ConfigError` with the pointer-open message. -/
theorem C3_load_error_taxonomy_witness :
    load_config parseConfigEx parseMaestroEx "e1" "e2" "e3" "e4" fsNoPointer
      = .error (.ConfigError
          "Failed to load Maestro configuration: e1\nEnsure Maestro is configured") :=
  (C3_load_error_taxonomy parseConfigEx parseMaestroEx
      "e1" "e2" "e3" "e4" fsNoPointer).1 rfl

/-- Counterexample to C3 as stated: two of the four failure modes —
pointer file not found, and user configuration file not found — produce
errors of the same kind (`ConfigError`), differing only in message, so a
caller cannot tell them apart by branching on the error kind alone. -/
theorem C3_counterexample_kind_collision :
    load_config parseConfigEx parseMaestroEx "e1" "e2" "e3" "e4" fsNoPointer
      = .error (.ConfigError
          "Failed to load Maestro configuration: e1\nEnsure Maestro is configured")
    ∧ load_config parseConfigEx parseMaestroEx "e1" "e2" "e3" "e4" fsNoUserFile
      = .error (.ConfigError
          "Failed to load user configuration: e3\nEnsure Maestro is configured")
    ∧ (MaestroError.ConfigError
        "Failed to load Maestro configuration: e1\nEnsure Maestro is configured").kind
      = (MaestroError.ConfigError
          "Failed to load user configuration: e3\nEnsure Maestro is configured").kind
    ∧ (MaestroError.ConfigError
        "Failed to load Maestro configuration: e1\nEnsure Maestro is configured")
      ≠ (MaestroError.ConfigError
          "Failed to load user configuration: e3\nEnsure Maestro is configured") := by
  refine ⟨rfl, rfl, rfl, by decide⟩

/-- Claim C8, corrected. When the user configuration parses to an aggregate
`pre ++ wB :: post` with `wB.name = "Workspace B"` and every workspace
before `wB` valid, the load fails with the validation error (not a parse
error) whose message is exactly `"Name must be a single word (underscores
are allowed)"`, which contains `"Name must be a single word"`. -/
theorem C8_load_workspace_b_validation
    (pc : String → Option Config) (pm : String → Option Maestro)
    (e1 e2 e3 e4 : String) (fs : FileSystem) (s u : String) (cfg : Config)
    (pre post : List Workspace) (wB : Workspace)
    (h1 : fs.pointerFile = some s) (h2 : pc s = some cfg)
    (h3 : fs.userFiles cfg.config_file_path = some u)
    (h4 : pm u = some (Maestro.mk (pre ++ wB :: post)))
    (h5 : wB.name = "Workspace B")
    (h6 : ∀ v ∈ pre, v.validate = .ok ()) :
    load_config pc pm e1 e2 e3 e4 fs
      = .error (.MaestroConfigValidationError
          "Name must be a single word (underscores are allowed)")
    ∧ containsSubstr "Name must be a single word (underscores are allowed)"
        "Name must be a single word" := by
  have hm : matchesWordPattern wB.name = false := by
    rw [h5]; decide
  have hwB : wB.validate = .error (.MaestroConfigValidationError
      "Name must be a single word (underscores are allowed)") :=
    validate_pattern_fail wB hm
  have hval : (Maestro.mk (pre ++ wB :: post)).validate
      = .error (.MaestroConfigValidationError
          "Name must be a single word (underscores are allowed)") :=
    validateAll_first_error pre wB post _ h6 hwB
  constructor
  · simp [load_config, h1, h2, h3, h4, hval]
  · decide

/-- Witness for C8 at a concrete environment: the lone workspace is
`"Workspace B"`. -/
theorem C8_load_workspace_b_validation_witness :
    load_config parseConfigEx
      (fun t => if t = "usr" then
          some (Maestro.mk [⟨"Workspace B", "d", "/b", none⟩]) else none)
      "e1" "e2" "e3" "e4" fsUserFile
      = .error (.MaestroConfigValidationError
          "Name must be a single word (underscores are allowed)")
    ∧ containsSubstr "Name must be a single word (underscores are allowed)"
        "Name must be a single word" :=
  C8_load_workspace_b_validation parseConfigEx
    (fun t => if t = "usr" then
        some (Maestro.mk [⟨"Workspace B", "d", "/b", none⟩]) else none)
    "e1" "e2" "e3" "e4" fsUserFile "ptr" "usr" (Config.new "user.json")
    [] [] ⟨"Workspace B", "d", "/b", none⟩
    rfl rfl rfl rfl rfl (by simp)

/-- Counterexample to C8 as stated: a user configuration containing the
workspace named `"Workspace B"` but whose earlier workspace `"WorkspaceA"`
has an empty path makes the load fail with the path message, which does
not contain `"Name must be a single word"`. -/
theorem C8_counterexample_earlier_invalid :
    load_config parseConfigEx parseMaestroEx "e1" "e2" "e3" "e4" fsUserFile
      = .error (.MaestroConfigValidationError "Workspace path cannot be empty")
    ∧ ¬ containsSubstr "Workspace path cannot be empty"
        "Name must be a single word"
    ∧ (maestroEmptyPathThenSpace.workspaces.map Workspace.name).contains
        "Workspace B" = true := by
  refine ⟨rfl, by decide, by decide⟩

/-- Claim C4, corrected. When canonicalization of the argument path fails,
`save_user_config_file` fails with the canonicalization `ConfigError` —
but only after `File::create` has already created or truncated the
well-known pointer file, so the pointer file ends the failed call empty
rather than with its prior contents. -/
theorem C4_save_canon_failure (env : SaveEnv) (st : Option String) (p : String)
    (hcreate : env.createOk = true) (hcanon : env.canon p = none) :
    (save_user_config_file env st p).2
      = .err (.ConfigError ("Failed to canonicalize path '" ++ p ++ "': "
          ++ env.canonErr ++ "\nEnsure the file exists"))
    ∧ (save_user_config_file env st p).1 = some "" := by
  unfold save_user_config_file
  rw [hcreate, hcanon]
  exact ⟨rfl, rfl⟩

/-- Witness for C4 at a concrete environment. -/
theorem C4_save_canon_failure_witness :
    (save_user_config_file envCanonFails (some "old") "/missing").2
      = .err (.ConfigError "Failed to canonicalize path '/missing': No such file or directory\nEnsure the file exists")
    ∧ (save_user_config_file envCanonFails (some "old") "/missing").1 = some "" :=
  C4_save_canon_failure envCanonFails (some "old") "/missing" rfl rfl

/-- Counterexample to C4 as stated: with prior pointer contents `"old"`
and a non-existent path, the failed save leaves the pointer file empty —
created and truncated by `File::create` before canonicalization ran — so
the pointer file does not keep its prior contents. -/
theorem C4_counterexample_pointer_truncated :
    (save_user_config_file envCanonFails (some "old") "/missing").2
      = .err (.ConfigError "Failed to canonicalize path '/missing': No such file or directory\nEnsure the file exists")
    ∧ (save_user_config_file envCanonFails (some "old") "/missing").1 ≠ some "old" := by
  refine ⟨rfl, by decide⟩

/-- Claim C7. For an existing path `p` with canonical UTF-8 form `q`, under
the environmental facts that `fs::canonicalize` is idempotent and that
deserialization inverts serialization, a successful save returns `q`,
leaves the pointer file holding the serialized `Config::new(q)` whose
`config_file_path` is `q`, and canonicalizing `q` again yields `q`. -/
theorem C7_save_roundtrip (env : SaveEnv) (st : Option String) (p q : String)
    (parseConfig : String → Option Config)
    (hcreate : env.createOk = true) (hwrite : env.writeOk = true)
    (hcanon : env.canon p = some (some q))
    (hidem : ∀ s t, env.canon s = some (some t) → env.canon t = some (some t))
    (hparse : ∀ c, parseConfig (env.toJson c) = some c) :
    (save_user_config_file env st p).2 = .ok q
    ∧ (save_user_config_file env st p).1 = some (env.toJson (Config.new q))
    ∧ parseConfig (env.toJson (Config.new q)) = some (Config.new q)
    ∧ (Config.new q).config_file_path = q
    ∧ env.canon q = some (some q) := by
  refine ⟨?_, ?_, hparse _, rfl, hidem p q hcanon⟩ <;>
    (unfold save_user_config_file; rw [hcreate, hcanon]; simp [hwrite])

/-- Witness for C7 at a concrete environment. -/
theorem C7_save_roundtrip_witness :
    (save_user_config_file envCanonConst none "user.json").2 = .ok "/abs/user.json"
    ∧ (save_user_config_file envCanonConst none "user.json").1
        = some (envCanonConst.toJson (Config.new "/abs/user.json"))
    ∧ parseConfigInv (envCanonConst.toJson (Config.new "/abs/user.json"))
        = some (Config.new "/abs/user.json")
    ∧ (Config.new "/abs/user.json").config_file_path = "/abs/user.json"
    ∧ envCanonConst.canon "/abs/user.json" = some (some "/abs/user.json") :=
  C7_save_roundtrip envCanonConst none "user.json" "/abs/user.json"
    parseConfigInv rfl rfl rfl
    (fun s t h => by
      have ht : t = "/abs/user.json" := by
        have h1 : some (some "/abs/user.json") = some (some t) := h
        injection h1 with h2
        injection h2 with h3
        exact h3.symm
      rw [ht]
      rfl)
    (fun c => rfl)

/-- Claim C9. `save_user_config_file` is not total over its error type: in an
environment where the canonical path is not valid UTF-8 the call panics
(`to_str().unwrap()`) rather than returning a `MaestroError`; whenever
every resolvable canonical path is valid UTF-8 the call never panics and a
`Result` is returned. -/
theorem C9_save_partiality :
    (save_user_config_file envCanonNotUtf8 none "p").2 = .panicked
    ∧ ∀ (env : SaveEnv) (st : Option String) (p : String),
        (∀ q r, env.canon q = some r → r ≠ none) →
        (save_user_config_file env st p).2 ≠ .panicked := by
  constructor
  · rfl
  · intro env st p hutf8
    unfold save_user_config_file
    by_cases hc : env.createOk
    · rw [hc]
      cases hcanon : env.canon p with
      | none => simp
      | some r =>
        cases r with
        | none => exact absurd rfl (hutf8 p none hcanon)
        | some s => by_cases hw : env.writeOk <;> simp [hw]
    · simp [hc]

/-- Witness for C9's no-panic direction at a concrete environment whose
canonical paths are all valid UTF-8. -/
theorem C9_save_partiality_witness :
    (save_user_config_file envCanonConst none "user.json").2 ≠ .panicked :=
  C9_save_partiality.2 envCanonConst none "user.json"
    (fun q r h => by
      have h1 : some (some "/abs/user.json") = some r := h
      injection h1 with h2
      rw [← h2]
      exact fun hc => by cases hc)

/-- Claim C10. The `"Name cannot be empty"` branch of `Workspace::validate` is
dead code: whenever the `^\w+$` check passes the name is non-empty, so no
call ever returns that error. -/
theorem C10_empty_name_branch_unreachable (w : Workspace) :
    w.validate ≠ .error (.MaestroConfigValidationError "Name cannot be empty") := by
  unfold Workspace.validate
  by_cases hm : matchesWordPattern w.name
  · have hn : w.name.isEmpty = false := by
      unfold matchesWordPattern at hm
      rcases Bool.and_eq_true_iff.mp hm with ⟨h1, _⟩
      simpa using h1
    by_cases hp : w.workspace_path.isEmpty <;> simp [hm, hn, hp]
  · simp [hm]

end Maestro
